import Mathlib

/-!
Verification of the roblox-backgroundcheck repository.

Shallow embedding of the two API route handlers:
  * src/app/api/roblox/user/route.ts  (namespace RobloxUser)
  * src/app/api/evaluate/route.ts     (namespace Evaluate)
Each source file contains two variants separated by a document marker; the
embedding follows the first variant of each file, which is the one the
claims cite by line number.

Modelling conventions:
  * JavaScript numbers that hold integral counts/scores are modelled as Int.
  * Nullable values (X | null, optional JSON fields) are modelled as Option.
  * Network interaction is modelled by an environment record that maps each
    upstream request to its response; cursor-paginated endpoints are
    modelled as a function from the request cursor to the served page, and
    the unbounded while-loops are given a fuel argument (all theorems assume
    enough fuel for the interaction described by their hypotheses).
  * Fetches are assumed to return a response (network exceptions are not
    modelled); a non-2xx response is a response with ok = false.
  * String values built with template interpolation are rebuilt with
    string append and toString.
-/

/-- Three-value ordinal risk level shared by both routes ("LOW"/"MEDIUM"/"HIGH"
in the user route, "Low"/"Medium"/"High" in the evaluate route). -/
inductive RiskLevel where
  | low
  | medium
  | high
deriving DecidableEq, Repr

/-- Rank of a level in the Low < Medium < High ordering. -/
def RiskLevel.rank : RiskLevel → Nat
  | .low => 0
  | .medium => 1
  | .high => 2

namespace RobloxUser

/-- BGC requirements constant, route.ts lines 7-12. -/
structure Requirements where
  minAccountAgeDays : Int
  minBadges : Int
  minFriends : Int
  minGroups : Int
deriving DecidableEq, Repr

/-- route.ts lines 7-12. -/
def REQUIREMENTS : Requirements := ⟨60, 300, 20, 10⟩

/-- Argument record of computeRisk, route.ts lines 31-39. -/
structure RiskMetrics where
  ageDays : Option Int
  badges : Option Int
  friends : Option Int
  groups : Option Int
  groupsVerified : Bool
  badgesVerified : Bool
  friendsVerified : Bool
deriving DecidableEq, Repr

/-- Result record of computeRisk, route.ts line 137. -/
structure RiskResult where
  level : RiskLevel
  score : Int
  factors : List String
deriving DecidableEq, Repr

/-- Score added by the could-not-verify checks, route.ts lines 44-59. -/
def verifyScore (m : RiskMetrics) : Int :=
  (if m.ageDays = none then 25 else 0) +
  (if m.friendsVerified then 0 else 15) +
  (if m.badgesVerified then 0 else 15) +
  (if m.groupsVerified then 0 else 20)

/-- Factors pushed by the could-not-verify checks, in push order,
route.ts lines 44-59. -/
def verifyFactorList (m : RiskMetrics) : List String :=
  (if m.ageDays = none then ["Could not verify account age."] else []) ++
  (if m.friendsVerified then [] else ["Could not verify friends list/count."]) ++
  (if m.badgesVerified then [] else ["Could not verify badge count."]) ++
  (if m.groupsVerified then [] else ["Could not verify groups."])

/-- Age penalty block, route.ts lines 74-82 (0 when the requirement is met). -/
def agePenalty (ageDays : Int) : Int :=
  if REQUIREMENTS.minAccountAgeDays ≤ ageDays then 0
  else if 50 ≤ ageDays then 10
  else if 40 ≤ ageDays then 20
  else if 30 ≤ ageDays then 35
  else 45

/-- Age factor pushed by route.ts line 76 when the requirement is missed. -/
def ageFactorList (ageDays : Int) : List String :=
  if REQUIREMENTS.minAccountAgeDays ≤ ageDays then []
  else ["Account age is below 60 days (" ++ toString ageDays ++ "d)."]

/-- Badge penalty block, route.ts lines 84-91. -/
def badgePenalty (badges : Int) : Int :=
  if REQUIREMENTS.minBadges ≤ badges then 0
  else if 250 ≤ badges then 10
  else if 200 ≤ badges then 18
  else if 150 ≤ badges then 28
  else if 100 ≤ badges then 38
  else 45

/-- Badge factor pushed by route.ts line 85. -/
def badgeFactorList (badges : Int) : List String :=
  if REQUIREMENTS.minBadges ≤ badges then []
  else ["Badge count is below 300 (" ++ toString badges ++ ")."]

/-- Friend penalty block, route.ts lines 93-99. -/
def friendPenalty (friends : Int) : Int :=
  if REQUIREMENTS.minFriends ≤ friends then 0
  else if 15 ≤ friends then 10
  else if 10 ≤ friends then 18
  else if 5 ≤ friends then 28
  else 40

/-- Friend factor pushed by route.ts line 94. -/
def friendFactorList (friends : Int) : List String :=
  if REQUIREMENTS.minFriends ≤ friends then []
  else ["Friends count is below 20 (" ++ toString friends ++ ")."]

/-- Group penalty block, route.ts lines 101-107. -/
def groupPenalty (groups : Int) : Int :=
  if REQUIREMENTS.minGroups ≤ groups then 0
  else if 8 ≤ groups then 10
  else if 6 ≤ groups then 18
  else if 3 ≤ groups then 28
  else 40

/-- Group factor pushed by route.ts line 102. -/
def groupFactorList (groups : Int) : List String :=
  if REQUIREMENTS.minGroups ≤ groups then []
  else ["Groups/community count is below 10 (" ++ toString groups ++ ")."]

/-- The mutable score after all additions of route.ts lines 40-107 (nulls
coalesced to 0 as in lines 62-65), before the final clamp of line 135. -/
def rawScore (m : RiskMetrics) : Int :=
  verifyScore m +
  agePenalty (m.ageDays.getD 0) +
  badgePenalty (m.badges.getD 0) +
  friendPenalty (m.friends.getD 0) +
  groupPenalty (m.groups.getD 0)

/-- Factors accumulated by route.ts lines 40-107, in push order. -/
def baseFactors (m : RiskMetrics) : List String :=
  verifyFactorList m ++
  ageFactorList (m.ageDays.getD 0) ++
  badgeFactorList (m.badges.getD 0) ++
  friendFactorList (m.friends.getD 0) ++
  groupFactorList (m.groups.getD 0)

/-- Number of failed requirements, route.ts line 110. -/
def failedCount (m : RiskMetrics) : Nat :=
  (if REQUIREMENTS.minAccountAgeDays ≤ m.ageDays.getD 0 then 0 else 1) +
  (if REQUIREMENTS.minFriends ≤ m.friends.getD 0 then 0 else 1) +
  (if REQUIREMENTS.minBadges ≤ m.badges.getD 0 then 0 else 1) +
  (if REQUIREMENTS.minGroups ≤ m.groups.getD 0 then 0 else 1)

/-- The severe condition, route.ts lines 113-117. -/
def severeCond (m : RiskMetrics) : Prop :=
  m.ageDays.getD 0 < 45 ∨ m.badges.getD 0 < 150 ∨
  m.friends.getD 0 < 10 ∨ m.groups.getD 0 < 5

instance (m : RiskMetrics) : Decidable (severeCond m) :=
  inferInstanceAs (Decidable (m.ageDays.getD 0 < 45 ∨ m.badges.getD 0 < 150 ∨
    m.friends.getD 0 < 10 ∨ m.groups.getD 0 < 5))

/-- Condition of the LOW branch, route.ts line 122. -/
def lowCond (m : RiskMetrics) : Prop :=
  failedCount m = 0 ∧ rawScore m ≤ 5

instance (m : RiskMetrics) : Decidable (lowCond m) :=
  inferInstanceAs (Decidable (failedCount m = 0 ∧ rawScore m ≤ 5))

/-- Condition of the HIGH branch, route.ts line 127. -/
def highCond (m : RiskMetrics) : Prop :=
  2 ≤ failedCount m ∨ severeCond m ∨ 60 ≤ rawScore m

instance (m : RiskMetrics) : Decidable (highCond m) :=
  inferInstanceAs (Decidable (2 ≤ failedCount m ∨ severeCond m ∨ 60 ≤ rawScore m))

/-- Level decision, route.ts lines 120-132. -/
def levelOf (m : RiskMetrics) : RiskLevel :=
  if lowCond m then .low
  else if highCond m then .high
  else .medium

/-- Factors returned: the neutral entry is substituted only in the LOW branch
when no factor was accumulated, route.ts lines 122-124. -/
def factorsOut (m : RiskMetrics) : List String :=
  if lowCond m ∧ baseFactors m = [] then ["Meets all BGC requirements."]
  else baseFactors m

/-- computeRisk, route.ts lines 31-138: level from lines 120-132, score
clamped to 0-100 at line 135 (after the level decision), factors from
lines 40-124. -/
def computeRisk (m : RiskMetrics) : RiskResult :=
  ⟨levelOf m, max 0 (min 100 (rawScore m)), factorsOut m⟩

/-- All-present, all-verified metrics record used to state properties of
computeRisk at concrete numeric inputs. -/
def metricsAt (ageDays badges friends groups : Int)
    (fv bv gv : Bool) : RiskMetrics :=
  ⟨some ageDays, some badges, some friends, some groups, gv, bv, fv⟩

/-- Days between now and an ISO date string: accountAgeDays, route.ts lines
17-23. dateParse models new Date(s).getTime() (none when the result is NaN,
i.e. not finite); the floor of the millisecond difference divided by
86400000 is Int.fdiv. -/
def accountAgeDays (now : Int) (dateParse : String → Option Int)
    (createdISO : String) : Option Int :=
  match dateParse createdISO with
  | none => none
  | some created => some (Int.fdiv (now - created) 86400000)

/-- JSON body of the primary user fetch, consumed at route.ts lines 174 and
370-391. Optional fields model nullable/absent JSON fields. -/
structure JsUser where
  id : Int
  name : String
  displayName : Option String
  description : Option String
  created : Option String
  isBanned : Bool
deriving DecidableEq, Repr

/-- Response of the primary user fetch, route.ts lines 163-174. -/
structure UserFetch where
  ok : Bool
  status : Nat
  user : JsUser
deriving DecidableEq, Repr

/-- One element of the avatar thumbnail data array, route.ts line 188. -/
structure AvatarDatum where
  imageUrl : Option String
deriving DecidableEq, Repr

/-- Response of the avatar fetch, route.ts lines 179-193. -/
structure AvatarFetch where
  ok : Bool
  data : Option (List AvatarDatum)
deriving DecidableEq, Repr

/-- Avatar URL extraction, route.ts lines 179-193: taken from the first data
element only when the fetch succeeded and the data array is non-empty. -/
def avatarUrlOf (a : AvatarFetch) : Option String :=
  if a.ok then
    match a.data with
    | some (d :: _) => d.imageUrl
    | _ => none
  else none

/-- Raw friend record of a friends page, route.ts lines 216-221. -/
structure FriendJson where
  id : Int
  name : Option String
  displayName : Option String
deriving DecidableEq, Repr

/-- Normalized friend entry, route.ts line 198. -/
structure FriendEntry where
  id : Int
  username : String
  displayName : String
deriving DecidableEq, Repr

/-- One friends page response: data array and optional next cursor,
route.ts lines 207-225. -/
structure FriendsPage where
  ok : Bool
  status : Nat
  data : Option (List FriendJson)
  nextPageCursor : Option String
deriving DecidableEq, Repr

/-- Field normalization of one friend record, route.ts lines 216-221
(username falls back from name, displayName from displayName then name). -/
def friendEntryOf (f : FriendJson) : FriendEntry :=
  ⟨f.id, f.name.getD "",
    match f.displayName with
    | some d => d
    | none => f.name.getD ""⟩

/-- Entries contributed by one friends page, route.ts lines 215-223
(a missing data array contributes the empty list). -/
def friendPageEntries (p : FriendsPage) : List FriendEntry :=
  (p.data.getD []).map friendEntryOf

/-- The friends pagination while-loop, route.ts lines 202-230: the stub maps
the request cursor to the served page; on a non-ok page the loop breaks with
friendsVerified = false keeping the entries collected so far; otherwise the
page entries are appended and the loop continues with the page cursor,
stopping with friendsVerified = true on a cursor-less page. Fuel bounds the
interaction length; exhausted fuel models a truncated interaction and yields
the accumulator with the verified flag false. -/
def friendsLoop (stub : Option String → FriendsPage) :
    Nat → Option String → List FriendEntry → List FriendEntry × Bool
  | 0, _, acc => (acc, false)
  | fuel + 1, cursor, acc =>
    let res := stub cursor
    if res.ok then
      let acc2 := acc ++ friendPageEntries res
      match res.nextPageCursor with
      | none => (acc2, true)
      | some c => friendsLoop stub fuel (some c) acc2
    else (acc, false)

/-- Response of a followers/followings count fetch, route.ts lines 240-260. -/
structure CountFetch where
  ok : Bool
  count : Option Int
deriving DecidableEq, Repr

/-- Raw group record, route.ts lines 279-283, with the nested group and role
objects flattened; an optional groupId models Number(g.group?.id) turning a
missing field into NaN. -/
structure GroupJson where
  groupId : Option Int
  groupName : Option String
  roleName : Option String
deriving DecidableEq, Repr

/-- Normalized group entry, route.ts line 265. -/
structure GroupEntry where
  id : Option Int
  name : String
  role : String
deriving DecidableEq, Repr

/-- Field normalization of one group record, route.ts lines 279-283. -/
def groupEntryOf (g : GroupJson) : GroupEntry :=
  ⟨g.groupId, g.groupName.getD "", g.roleName.getD ""⟩

/-- Response of the groups fetch (single request, not paginated),
route.ts lines 269-288. -/
structure GroupsFetch where
  ok : Bool
  data : Option (List GroupJson)
deriving DecidableEq, Repr

/-- Raw badge record, route.ts lines 314-317. -/
structure BadgeJson where
  id : Int
  name : Option String
deriving DecidableEq, Repr

/-- Normalized badge entry, route.ts line 295. -/
structure BadgeEntry where
  id : Int
  name : String
deriving DecidableEq, Repr

/-- One badges page response, route.ts lines 305-326: data array, optional
numeric total, optional next cursor. -/
structure BadgesPage where
  ok : Bool
  status : Nat
  data : Option (List BadgeJson)
  total : Option Int
  nextPageCursor : Option String
deriving DecidableEq, Repr

/-- Entries contributed by one badges page, route.ts lines 313-319. -/
def badgePageEntries (p : BadgesPage) : List BadgeEntry :=
  (p.data.getD []).map (fun b => ⟨b.id, b.name.getD ""⟩)

/-- The badges pagination while-loop, route.ts lines 300-330, threading the
collected entries and the last numeric total seen (lines 321-323). Same
break/fuel conventions as friendsLoop. -/
def badgesLoop (stub : Option String → BadgesPage) :
    Nat → Option String → List BadgeEntry → Option Int →
    List BadgeEntry × Option Int × Bool
  | 0, _, acc, total => (acc, total, false)
  | fuel + 1, cursor, acc, total =>
    let res := stub cursor
    if res.ok then
      let acc2 := acc ++ badgePageEntries res
      let total2 := match res.total with
        | some t => some t
        | none => total
      match res.nextPageCursor with
      | none => (acc2, total2, true)
      | some c => badgesLoop stub fuel (some c) acc2 total2
    else (acc, total, false)

/-- Raw username-history record, route.ts lines 355-358. -/
structure NameJson where
  name : Option String
  created : Option String
deriving DecidableEq, Repr

/-- Normalized username-history entry, route.ts line 341; a falsy created
string (absent or empty) becomes null per line 357. -/
structure NameEntry where
  name : String
  created : Option String
deriving DecidableEq, Repr

/-- One username-history page response, route.ts lines 349-363. -/
structure HistoryPage where
  ok : Bool
  status : Nat
  data : Option (List NameJson)
  nextPageCursor : Option String
deriving DecidableEq, Repr

/-- Entries contributed by one username-history page, route.ts lines
354-360. -/
def namePageEntries (p : HistoryPage) : List NameEntry :=
  (p.data.getD []).map (fun n =>
    ⟨n.name.getD "",
      match n.created with
      | some c => if c = "" then none else some c
      | none => none⟩)

/-- The username-history while-loop, route.ts lines 344-365: best effort,
a failed page simply stops collection keeping what was gathered. -/
def historyLoop (stub : Option String → HistoryPage) :
    Nat → Option String → List NameEntry → List NameEntry
  | 0, _, acc => acc
  | fuel + 1, cursor, acc =>
    let res := stub cursor
    if res.ok then
      let acc2 := acc ++ namePageEntries res
      match res.nextPageCursor with
      | none => acc2
      | some c => historyLoop stub fuel (some c) acc2
    else acc

/-- Verification block of the profile payload, route.ts lines 405-409. -/
structure Verification where
  friendsVerified : Bool
  groupsVerified : Bool
  badgesVerified : Bool
deriving DecidableEq, Repr

/-- Profile object of the payload, route.ts lines 385-410. -/
structure Profile where
  userId : Int
  username : String
  displayName : String
  description : String
  created : String
  isBanned : Bool
  avatarUrl : Option String
  friendsCount : Int
  followersCount : Int
  followingCount : Int
  groupsCount : Int
  totalBadges : Int
  accountAgeDays : Int
  risk : RiskResult
  requirements : Requirements
  verification : Verification
deriving DecidableEq, Repr

/-- Response payload, route.ts lines 412-418. -/
structure Payload where
  profile : Profile
  friends : List FriendEntry
  groups : List GroupEntry
  badges : List BadgeEntry
  usernameHistory : List NameEntry
deriving DecidableEq, Repr

/-- HTTP response of the route: status plus either the JSON payload or the
JSON error body. -/
structure ApiResponse where
  status : Nat
  payload : Option Payload
  error : Option String
deriving DecidableEq, Repr

/-- Environment of one GET request: the query parameter, the JavaScript
Number / Date.parse semantics (abstract; none models a non-finite result),
the clock, and the response served for each upstream request. -/
structure Env where
  idParam : Option String
  jsNumber : String → Option Int
  now : Int
  dateParse : String → Option Int
  userRes : UserFetch
  avatarRes : AvatarFetch
  friendsStub : Option String → FriendsPage
  followersRes : CountFetch
  followingRes : CountFetch
  groupsRes : GroupsFetch
  badgesStub : Option String → BadgesPage
  historyStub : Option String → HistoryPage
  fuel : Nat

/-- The 200 payload built by the successful path of GET, route.ts lines
160-420 (everything after the primary user fetch succeeded). -/
def successPayload (env : Env) : Payload :=
  let user := env.userRes.user
  let avatarUrl := avatarUrlOf env.avatarRes
  let fr := friendsLoop env.friendsStub env.fuel none []
  let friends := fr.1
  let friendsVerified := fr.2
  let friendsCount : Option Int :=
    if friendsVerified then some (friends.length : Int) else none
  let followersCount : Int :=
    if env.followersRes.ok then env.followersRes.count.getD 0 else 0
  let followingCount : Int :=
    if env.followingRes.ok then env.followingRes.count.getD 0 else 0
  let groupsVerified := env.groupsRes.ok
  let groups :=
    if env.groupsRes.ok then (env.groupsRes.data.getD []).map groupEntryOf
    else []
  let groupsCount : Option Int :=
    if groupsVerified then some (groups.length : Int) else none
  let bd := badgesLoop env.badgesStub env.fuel none [] none
  let badges := bd.1
  let badgesVerified := bd.2.2
  let totalBadges : Option Int :=
    if badgesVerified then
      if bd.2.1 = none ∨ bd.2.1 = some 0 then some (badges.length : Int)
      else bd.2.1
    else none
  let usernameHistory := historyLoop env.historyStub env.fuel none []
  let ageDays : Option Int :=
    match user.created with
    | none => none
    | some c => if c = "" then none
                else accountAgeDays env.now env.dateParse c
  let risk := computeRisk ⟨ageDays, totalBadges, friendsCount, groupsCount,
    groupsVerified, badgesVerified, friendsVerified⟩
  let profile : Profile :=
    ⟨user.id, user.name, user.displayName.getD user.name,
      user.description.getD "", user.created.getD "", user.isBanned,
      avatarUrl, friendsCount.getD 0, followersCount, followingCount,
      groupsCount.getD 0, totalBadges.getD 0, ageDays.getD 0, risk,
      REQUIREMENTS, ⟨friendsVerified, groupsVerified, badgesVerified⟩⟩
  ⟨profile, friends, groups, badges, usernameHistory⟩

/-- The GET handler, route.ts lines 140-428: 400 for a falsy or non-finite
id parameter (before any upstream request), the upstream status when the
primary user fetch fails, 200 with the aggregated payload otherwise. -/
def GET (env : Env) : ApiResponse :=
  match env.idParam with
  | none => ⟨400, none, some "Missing id query parameter"⟩
  | some s =>
    if s = "" then ⟨400, none, some "Missing id query parameter"⟩
    else
      match env.jsNumber s with
      | none => ⟨400, none, some "Invalid id query parameter"⟩
      | some _n =>
        if env.userRes.ok then ⟨200, some (successPayload env), none⟩
        else ⟨env.userRes.status, none, some "Failed to fetch Roblox user"⟩

/-- The id parameter is falsy or does not parse to a finite number
(the two 400 guards of route.ts lines 145-158). -/
def invalidId (env : Env) : Bool :=
  match env.idParam with
  | none => true
  | some s => (s == "") || (env.jsNumber s).isNone

/-- The stub serves, starting at the given cursor, exactly the given pages:
every page is ok, each non-final page carries a cursor under which the stub
serves the following page, and the final page carries no cursor. -/
def servesAll (stub : Option String → FriendsPage) :
    Option String → List FriendsPage → Prop
  | _, [] => True
  | cursor, p :: rest =>
    stub cursor = p ∧ p.ok = true ∧
    match rest with
    | [] => p.nextPageCursor = none
    | _ :: _ => ∃ s, p.nextPageCursor = some s ∧ servesAll stub (some s) rest

/-- The stub serves, starting at the given cursor, the given ok pages each
carrying a cursor, and then a non-ok page at the final cursor (a list fetch
failing mid-pagination). -/
def servesThenFails (stub : Option String → FriendsPage) :
    Option String → List FriendsPage → Prop
  | cursor, [] => (stub cursor).ok = false
  | cursor, p :: rest =>
    stub cursor = p ∧ p.ok = true ∧
    ∃ s, p.nextPageCursor = some s ∧ servesThenFails stub (some s) rest

end RobloxUser

namespace Evaluate

/-- evaluate/route.ts lines 5-9. -/
structure BlacklistedGroup where
  id : Int
  name : String
  reason : String
deriving DecidableEq, Repr

/-- evaluate/route.ts lines 11-15. -/
structure BlacklistedFriend where
  id : Int
  username : String
  reason : String
deriving DecidableEq, Repr

/-- evaluate/route.ts lines 17-20. -/
structure CrossDivisionEntry where
  divisionId : String
  divisionName : String
deriving DecidableEq, Repr

/-- evaluate/route.ts lines 22-26. -/
structure BlacklistResult where
  blacklistedGroups : List BlacklistedGroup
  blacklistedFriends : List BlacklistedFriend
  crossDivision : List CrossDivisionEntry
deriving DecidableEq, Repr

/-- evaluate/route.ts lines 37-42. -/
structure Requirements where
  minAgeDays : Int
  minBadges : Int
  minFriends : Int
  minGroups : Int
deriving DecidableEq, Repr

/-- evaluate/route.ts lines 44-49. -/
structure Counts where
  accountAgeDays : Int
  totalBadges : Int
  friendsCount : Int
  groupsCount : Int
deriving DecidableEq, Repr

/-- Group element of the profile JSON, evaluate/route.ts line 60. -/
structure ProfileGroup where
  id : Int
  name : String
  role : String
deriving DecidableEq, Repr

/-- Badge element of the profile JSON, evaluate/route.ts line 63. -/
structure ProfileBadge where
  id : Int
  name : String
deriving DecidableEq, Repr

/-- Profile JSON consumed from the first endpoint, evaluate/route.ts
lines 51-64 (all fields beyond userId/username are optional). -/
structure RobloxProfile where
  userId : Int
  username : String
  created : Option String
  accountAgeDays : Option Int
  friendsCount : Option Int
  groupsCount : Option Int
  groups : Option (List ProfileGroup)
  totalBadges : Option Int
  badges : Option (List ProfileBadge)
deriving DecidableEq, Repr

/-- Static blacklist table, evaluate/route.ts lines 68-70 (empty). -/
def BLACKLISTED_GROUPS : List BlacklistedGroup := []

/-- Static blacklist table, evaluate/route.ts lines 72-74 (empty). -/
def BLACKLISTED_FRIENDS : List BlacklistedFriend := []

/-- Static cross-division table, evaluate/route.ts line 76 (an empty record:
the lookup never finds an entry). -/
def CROSS_DIVISION_BLACKLIST : String → Option (List String) :=
  fun _ => none

/-- Division display names, evaluate/route.ts lines 78-83. -/
def DIVISION_NAMES : String → Option String := fun d =>
  if d = "default" then some "Default"
  else if d = "navy" then some "Navy / Fleet"
  else if d = "intel" then some "Intelligence"
  else if d = "sf" then some "Special Forces"
  else none

/-- daysSince, evaluate/route.ts lines 87-93: 0 for a falsy or unparseable
date, otherwise the non-negative floored day difference. -/
def daysSince (now : Int) (dateParse : String → Option Int)
    (dateIso : Option String) : Int :=
  match dateIso with
  | none => 0
  | some s =>
    if s = "" then 0
    else
      match dateParse s with
      | none => 0
      | some t => max 0 (Int.fdiv (now - t) 86400000)

/-- buildCounts, evaluate/route.ts lines 95-114. -/
def buildCounts (now : Int) (dateParse : String → Option Int)
    (profile : RobloxProfile) : Counts :=
  let accountAgeDays :=
    match profile.accountAgeDays with
    | some a => if 0 < a then a else daysSince now dateParse profile.created
    | none => daysSince now dateParse profile.created
  let totalBadges :=
    match profile.totalBadges with
    | some t => t
    | none =>
      match profile.badges with
      | some l => (l.length : Int)
      | none => 0
  let friendsCount := profile.friendsCount.getD 0
  let groupsCount :=
    match profile.groupsCount with
    | some c => c
    | none =>
      match profile.groups with
      | some l => (l.length : Int)
      | none => 0
  ⟨accountAgeDays, totalBadges, friendsCount, groupsCount⟩

/-- Closeness constant, evaluate/route.ts line 131. -/
def CLOSE_DAYS : Int := 10

/-- Closeness constant, evaluate/route.ts line 132. -/
def CLOSE_BADGES : Int := 75

/-- Closeness constant, evaluate/route.ts line 133. -/
def CLOSE_FRIENDS : Int := 5

/-- Closeness constant, evaluate/route.ts line 134. -/
def CLOSE_GROUPS : Int := 3

/-- Age block of computeRequirementRisk, evaluate/route.ts lines 137-143. -/
def agePoints (counts : Counts) (req : Requirements) : Int :=
  if counts.accountAgeDays < req.minAgeDays then
    let deficit := req.minAgeDays - counts.accountAgeDays
    if deficit ≤ CLOSE_DAYS then 2
    else if deficit ≤ 30 then 5
    else 8
  else 0

/-- Age factor of computeRequirementRisk, evaluate/route.ts line 142. -/
def ageFactors (counts : Counts) (req : Requirements) : List String :=
  if counts.accountAgeDays < req.minAgeDays then
    ["Account age below " ++ toString req.minAgeDays ++ " days (" ++
      toString counts.accountAgeDays ++ ")."]
  else []

/-- Badge block of computeRequirementRisk, evaluate/route.ts lines
146-152. -/
def badgePoints (counts : Counts) (req : Requirements) : Int :=
  if counts.totalBadges < req.minBadges then
    let deficit := req.minBadges - counts.totalBadges
    if deficit ≤ CLOSE_BADGES then 2
    else if 150 ≤ counts.totalBadges then 5
    else 8
  else 0

/-- Badge factor of computeRequirementRisk, evaluate/route.ts line 151. -/
def badgeFactors (counts : Counts) (req : Requirements) : List String :=
  if counts.totalBadges < req.minBadges then
    ["Badges below " ++ toString req.minBadges ++ " (" ++
      toString counts.totalBadges ++ ")."]
  else []

/-- Friend block of computeRequirementRisk, evaluate/route.ts lines
155-161. -/
def friendPoints (counts : Counts) (req : Requirements) : Int :=
  if counts.friendsCount < req.minFriends then
    let deficit := req.minFriends - counts.friendsCount
    if deficit ≤ CLOSE_FRIENDS then 2
    else if 10 ≤ counts.friendsCount then 5
    else 8
  else 0

/-- Friend factor of computeRequirementRisk, evaluate/route.ts line 160. -/
def friendFactors (counts : Counts) (req : Requirements) : List String :=
  if counts.friendsCount < req.minFriends then
    ["Friends below " ++ toString req.minFriends ++ " (" ++
      toString counts.friendsCount ++ ")."]
  else []

/-- Group block of computeRequirementRisk, evaluate/route.ts lines
164-170. -/
def groupPoints (counts : Counts) (req : Requirements) : Int :=
  if counts.groupsCount < req.minGroups then
    let deficit := req.minGroups - counts.groupsCount
    if deficit ≤ CLOSE_GROUPS then 2
    else if 3 ≤ counts.groupsCount then 5
    else 8
  else 0

/-- Group factor of computeRequirementRisk, evaluate/route.ts line 169. -/
def groupFactors (counts : Counts) (req : Requirements) : List String :=
  if counts.groupsCount < req.minGroups then
    ["Groups below " ++ toString req.minGroups ++ " (" ++
      toString counts.groupsCount ++ ")."]
  else []

/-- Result record of computeRequirementRisk, evaluate/route.ts line 126. -/
structure ReqRisk where
  score : Int
  factors : List String
deriving DecidableEq, Repr

/-- computeRequirementRisk, evaluate/route.ts lines 126-173: score additions
and factor pushes in source order (age, badges, friends, groups). -/
def computeRequirementRisk (counts : Counts) (req : Requirements) : ReqRisk :=
  ⟨agePoints counts req + badgePoints counts req + friendPoints counts req +
      groupPoints counts req,
    ageFactors counts req ++ badgeFactors counts req ++
      friendFactors counts req ++ groupFactors counts req⟩

/-- Result record of the combined computeRisk, evaluate/route.ts lines
175-178 (RiskSummary plus the echoed requirements and counts). -/
structure EvalRisk where
  level : RiskLevel
  score : Int
  factors : List String
  warnings : List String
  requirements : Requirements
  counts : Counts
deriving DecidableEq, Repr

/-- The total score added by the blacklist checks of computeRisk,
evaluate/route.ts lines 188-203 (6 per blacklisted group, 5 per blacklisted
friend, 8 per cross-division entry). -/
def blacklistScore (blacklist : BlacklistResult) : Int :=
  (if 0 < blacklist.blacklistedGroups.length then
    (blacklist.blacklistedGroups.length : Int) * 6 else 0) +
  (if 0 < blacklist.blacklistedFriends.length then
    (blacklist.blacklistedFriends.length : Int) * 5 else 0) +
  (if 0 < blacklist.crossDivision.length then
    (blacklist.crossDivision.length : Int) * 8 else 0)

/-- computeRisk, evaluate/route.ts lines 175-217: requirements score plus
per-category blacklist additions, level from the 0-3 / 4-11 / 12+ cutoffs,
a friendly default factor when none accrued, and a standalone warning on any
cross-division match. -/
def computeRisk (blacklist : BlacklistResult) (counts : Counts)
    (req : Requirements) : EvalRisk :=
  let reqPart := computeRequirementRisk counts req
  let score := reqPart.score +
    (if 0 < blacklist.blacklistedGroups.length then
      (blacklist.blacklistedGroups.length : Int) * 6 else 0) +
    (if 0 < blacklist.blacklistedFriends.length then
      (blacklist.blacklistedFriends.length : Int) * 5 else 0) +
    (if 0 < blacklist.crossDivision.length then
      (blacklist.crossDivision.length : Int) * 8 else 0)
  let factors := reqPart.factors ++
    (if 0 < blacklist.blacklistedGroups.length then
      ["Member of blacklisted groups."] else []) ++
    (if 0 < blacklist.blacklistedFriends.length then
      ["Friends with blacklisted users."] else []) ++
    (if 0 < blacklist.crossDivision.length then
      ["Blacklisted in other divisions."] else [])
  let warnings :=
    if 0 < blacklist.crossDivision.length then
      ["Cross-division blacklist detected."] else []
  let level : RiskLevel :=
    if 12 ≤ score then .high
    else if 4 ≤ score then .medium
    else .low
  let finalFactors :=
    if factors = [] then ["No specific risk factors detected."] else factors
  ⟨level, score, finalFactors, warnings, req, counts⟩

/-- The requirements record the route constructs, evaluate/route.ts lines
240-245. -/
def routeRequirements : Requirements := ⟨60, 300, 20, 10⟩

/-- Response of the internal re-call of /api/roblox/user, evaluate/route.ts
lines 261-275: status, response text, and the profile field of the parsed
JSON body. -/
structure RobloxFetch where
  ok : Bool
  status : Nat
  text : String
  profile : Option RobloxProfile
deriving DecidableEq, Repr

/-- Environment of one evaluate GET request. -/
structure EvalEnv where
  idParam : Option String
  division : Option String
  jsNumber : String → Option Int
  now : Int
  dateParse : String → Option Int
  robloxRes : RobloxFetch

/-- HTTP response of the evaluate route. -/
structure EvalResponse where
  status : Nat
  blacklist : Option BlacklistResult
  risk : Option EvalRisk
  counts : Option Counts
  error : Option String
  detail : Option String
deriving DecidableEq, Repr

/-- The evaluate GET handler, evaluate/route.ts lines 221-299: 400 for a
falsy, non-finite or non-positive id; 500 (with the response text as detail)
when the internal fetch of the first endpoint is not ok; 500 when its body
carries no profile; 200 with blacklist, risk and counts otherwise. -/
def GET (env : EvalEnv) : EvalResponse :=
  match env.idParam with
  | none => ⟨400, none, none, none, some "Missing id", none⟩
  | some raw =>
    if raw = "" then ⟨400, none, none, none, some "Missing id", none⟩
    else
      let userIdStr := raw.trim
      match env.jsNumber userIdStr with
      | none => ⟨400, none, none, none, some "Invalid id", none⟩
      | some n =>
        if n ≤ 0 then ⟨400, none, none, none, some "Invalid id", none⟩
        else
          let crossDivisionIds := (CROSS_DIVISION_BLACKLIST userIdStr).getD []
          let crossDivision := crossDivisionIds.map (fun d =>
            CrossDivisionEntry.mk d ((DIVISION_NAMES d).getD d))
          let blacklist : BlacklistResult :=
            ⟨BLACKLISTED_GROUPS, BLACKLISTED_FRIENDS, crossDivision⟩
          if env.robloxRes.ok then
            match env.robloxRes.profile with
            | none => ⟨500, none, none, none,
                some "Roblox profile missing in response", none⟩
            | some profile =>
              let counts := buildCounts env.now env.dateParse profile
              let risk := computeRisk blacklist counts routeRequirements
              ⟨200, some blacklist, some risk, some counts, none, none⟩
          else ⟨500, none, none, none,
            some "Failed to fetch Roblox profile for evaluation",
            some env.robloxRes.text⟩

end Evaluate

namespace RobloxUser

/-- A user object for concrete test environments. -/
def dummyUser : JsUser := ⟨1, "u", none, none, none, false⟩

/-- A friends page representing an unavailable endpoint. -/
def failFriendsPage : FriendsPage := ⟨false, 500, none, none⟩

/-- A badges page representing an unavailable endpoint. -/
def failBadgesPage : BadgesPage := ⟨false, 500, none, none, none⟩

/-- A history page representing an unavailable endpoint. -/
def failHistoryPage : HistoryPage := ⟨false, 500, none, none⟩

/-- Environment with a valid id whose primary user fetch fails with 404. -/
def envPrimary404 : Env :=
  ⟨some "5", fun _ => some 5, 0, fun _ => none,
    ⟨false, 404, dummyUser⟩, ⟨false, none⟩, fun _ => failFriendsPage,
    ⟨false, none⟩, ⟨false, none⟩, ⟨false, none⟩, fun _ => failBadgesPage,
    fun _ => failHistoryPage, 3⟩

/-- The one good friends page served before a mid-pagination failure. -/
def goodFriendsPage : FriendsPage :=
  ⟨true, 200, some [⟨7, some "alice", none⟩], some "c1"⟩

/-- Environment with a valid id, a successful primary fetch, and a friends
endpoint that serves one page with a cursor and then fails. -/
def envFriendsFail : Env :=
  ⟨some "5", fun _ => some 5, 0, fun _ => none,
    ⟨true, 200, dummyUser⟩, ⟨false, none⟩,
    fun c => if c = none then goodFriendsPage else failFriendsPage,
    ⟨false, none⟩, ⟨false, none⟩, ⟨false, none⟩, fun _ => failBadgesPage,
    fun _ => failHistoryPage, 5⟩

/-- First friends page of the three-page pagination test. -/
def pageA : FriendsPage :=
  ⟨true, 200, some [⟨1, some "a", none⟩, ⟨2, some "b", none⟩], some "A"⟩

/-- Second friends page of the three-page pagination test. -/
def pageB : FriendsPage := ⟨true, 200, some [⟨3, some "c", none⟩], some "B"⟩

/-- Third (cursor-less) friends page of the three-page pagination test. -/
def pageC : FriendsPage := ⟨true, 200, some [⟨4, some "d", none⟩], none⟩

/-- Stub serving the three-page chain: the initial request gets pageA, the
cursor of pageA gets pageB, the cursor of pageB gets pageC. -/
def stubThreePages : Option String → FriendsPage := fun c =>
  if c = some "A" then pageB
  else if c = some "B" then pageC
  else pageA

/-- Environment with a valid id whose primary user fetch fails with status
400: the endpoint then propagates 400 despite the id being valid. -/
def envUpstream400 : Env :=
  ⟨some "5", fun _ => some 5, 0, fun _ => none,
    ⟨false, 400, dummyUser⟩, ⟨false, none⟩, fun _ => failFriendsPage,
    ⟨false, none⟩, ⟨false, none⟩, ⟨false, none⟩, fun _ => failBadgesPage,
    fun _ => failHistoryPage, 3⟩

/-- Environment whose id parameter does not parse to a finite number. -/
def envBadId : Env :=
  ⟨some "abc", fun _ => none, 0, fun _ => none,
    ⟨true, 200, dummyUser⟩, ⟨false, none⟩, fun _ => failFriendsPage,
    ⟨false, none⟩, ⟨false, none⟩, ⟨false, none⟩, fun _ => failBadgesPage,
    fun _ => failHistoryPage, 3⟩

end RobloxUser

namespace Evaluate

/-- Evaluate-route environment with a valid id whose internal fetch of the
first endpoint fails with a propagated upstream 404. -/
def envInternal404 : EvalEnv :=
  ⟨some "5", none, fun _ => some 5, 0,
    fun _ => none, ⟨false, 404, "upstream says no", none⟩⟩

end Evaluate

namespace RobloxUser

theorem computeRisk_level (m : RiskMetrics) : (computeRisk m).level = levelOf m := rfl

theorem computeRisk_score (m : RiskMetrics) :
    (computeRisk m).score = max 0 (min 100 (rawScore m)) := rfl

theorem computeRisk_factors (m : RiskMetrics) :
    (computeRisk m).factors = factorsOut m := rfl

theorem agePenalty_eq (x : Int) : agePenalty x =
    if 60 ≤ x then 0 else if 50 ≤ x then 10 else if 40 ≤ x then 20
    else if 30 ≤ x then 35 else 45 := rfl

theorem badgePenalty_eq (x : Int) : badgePenalty x =
    if 300 ≤ x then 0 else if 250 ≤ x then 10 else if 200 ≤ x then 18
    else if 150 ≤ x then 28 else if 100 ≤ x then 38 else 45 := rfl

theorem friendPenalty_eq (x : Int) : friendPenalty x =
    if 20 ≤ x then 0 else if 15 ≤ x then 10 else if 10 ≤ x then 18
    else if 5 ≤ x then 28 else 40 := rfl

theorem groupPenalty_eq (x : Int) : groupPenalty x =
    if 10 ≤ x then 0 else if 8 ≤ x then 10 else if 6 ≤ x then 18
    else if 3 ≤ x then 28 else 40 := rfl

theorem agePenalty_anti {x y : Int} (h : y ≤ x) :
    agePenalty x ≤ agePenalty y := by
  rw [agePenalty_eq, agePenalty_eq]; split_ifs <;> omega

theorem badgePenalty_anti {x y : Int} (h : y ≤ x) :
    badgePenalty x ≤ badgePenalty y := by
  rw [badgePenalty_eq, badgePenalty_eq]; split_ifs <;> omega

theorem friendPenalty_anti {x y : Int} (h : y ≤ x) :
    friendPenalty x ≤ friendPenalty y := by
  rw [friendPenalty_eq, friendPenalty_eq]; split_ifs <;> omega

theorem groupPenalty_anti {x y : Int} (h : y ≤ x) :
    groupPenalty x ≤ groupPenalty y := by
  rw [groupPenalty_eq, groupPenalty_eq]; split_ifs <;> omega

theorem agePenalty_of_le {x : Int} (h : 60 ≤ x) : agePenalty x = 0 := by
  rw [agePenalty_eq, if_pos h]

theorem badgePenalty_of_le {x : Int} (h : 300 ≤ x) : badgePenalty x = 0 := by
  rw [badgePenalty_eq, if_pos h]

theorem friendPenalty_of_le {x : Int} (h : 20 ≤ x) : friendPenalty x = 0 := by
  rw [friendPenalty_eq, if_pos h]

theorem groupPenalty_of_le {x : Int} (h : 10 ≤ x) : groupPenalty x = 0 := by
  rw [groupPenalty_eq, if_pos h]

theorem rawScore_metricsAt (a b f g : Int) (fv bv gv : Bool) :
    rawScore (metricsAt a b f g fv bv gv) =
      verifyScore (metricsAt a b f g fv bv gv) +
      agePenalty a + badgePenalty b + friendPenalty f + groupPenalty g := rfl

theorem failedCount_metricsAt (a b f g : Int) (fv bv gv : Bool) :
    failedCount (metricsAt a b f g fv bv gv) =
      (if 60 ≤ a then 0 else 1) + (if 20 ≤ f then 0 else 1) +
      (if 300 ≤ b then 0 else 1) + (if 10 ≤ g then 0 else 1) := rfl

theorem severeCond_metricsAt (a b f g : Int) (fv bv gv : Bool) :
    severeCond (metricsAt a b f g fv bv gv) ↔
      a < 45 ∨ b < 150 ∨ f < 10 ∨ g < 5 := Iff.rfl

theorem levelOf_low_iff (m : RiskMetrics) : levelOf m = .low ↔ lowCond m := by
  unfold levelOf; split_ifs <;> simp_all

theorem levelOf_high_iff (m : RiskMetrics) :
    levelOf m = .high ↔ ¬ lowCond m ∧ highCond m := by
  unfold levelOf; split_ifs <;> simp_all

theorem rank_le_of_bridges {l l2 : RiskLevel} (h1 : l2 = .low → l = .low)
    (h2 : l = .high → l2 = .high) : l.rank ≤ l2.rank := by
  cases l <;> cases l2 <;> simp_all [RiskLevel.rank]

theorem ite01_le {t x y : Int} (h : y ≤ x) :
    (if t ≤ x then (0 : Nat) else 1) ≤ (if t ≤ y then 0 else 1) := by
  split_ifs <;> omega

/-- computeRisk is componentwise monotone: decreasing any of the four
present metrics (verification flags held fixed) never decreases the
returned score and never lowers the returned level. -/
theorem computeRisk_mono (fv bv gv : Bool) {a a2 b b2 f f2 g g2 : Int}
    (ha : a2 ≤ a) (hb : b2 ≤ b) (hf : f2 ≤ f) (hg : g2 ≤ g) :
    (computeRisk (metricsAt a b f g fv bv gv)).score ≤
      (computeRisk (metricsAt a2 b2 f2 g2 fv bv gv)).score ∧
    (computeRisk (metricsAt a b f g fv bv gv)).level.rank ≤
      (computeRisk (metricsAt a2 b2 f2 g2 fv bv gv)).level.rank := by
  have hV : verifyScore (metricsAt a b f g fv bv gv) =
      verifyScore (metricsAt a2 b2 f2 g2 fv bv gv) := rfl
  have hs : rawScore (metricsAt a b f g fv bv gv) ≤
      rawScore (metricsAt a2 b2 f2 g2 fv bv gv) := by
    rw [rawScore_metricsAt, rawScore_metricsAt, hV]
    have h1 := agePenalty_anti ha
    have h2 := badgePenalty_anti hb
    have h3 := friendPenalty_anti hf
    have h4 := groupPenalty_anti hg
    omega
  have hfailmono : failedCount (metricsAt a b f g fv bv gv) ≤
      failedCount (metricsAt a2 b2 f2 g2 fv bv gv) := by
    rw [failedCount_metricsAt, failedCount_metricsAt]
    exact Nat.add_le_add (Nat.add_le_add (Nat.add_le_add (ite01_le ha)
      (ite01_le hf)) (ite01_le hb)) (ite01_le hg)
  have hlowbridge : lowCond (metricsAt a2 b2 f2 g2 fv bv gv) →
      lowCond (metricsAt a b f g fv bv gv) := by
    rintro ⟨h0, h5⟩
    refine ⟨?_, le_trans hs h5⟩
    rw [failedCount_metricsAt] at h0 ⊢
    split_ifs at h0 ⊢ <;> omega
  constructor
  · rw [computeRisk_score, computeRisk_score]
    exact max_le_max (le_refl 0) (min_le_min (le_refl 100) hs)
  · rw [computeRisk_level, computeRisk_level]
    apply rank_le_of_bridges
    · intro h2low
      exact (levelOf_low_iff _).mpr (hlowbridge ((levelOf_low_iff _).mp h2low))
    · intro hhigh
      obtain ⟨hnlow, hcond⟩ := (levelOf_high_iff _).mp hhigh
      refine (levelOf_high_iff _).mpr ⟨fun hl2 => hnlow (hlowbridge hl2), ?_⟩
      rcases hcond with h2f | hsev | h60
      · exact Or.inl (le_trans h2f hfailmono)
      · refine Or.inr (Or.inl ?_)
        rw [severeCond_metricsAt] at hsev ⊢
        omega
      · exact Or.inr (Or.inr (le_trans h60 hs))

end RobloxUser

namespace RobloxUser

theorem ageFactorList_eq (x : Int) : ageFactorList x =
    if 60 ≤ x then []
    else ["Account age is below 60 days (" ++ toString x ++ "d)."] := rfl

theorem badgeFactorList_eq (x : Int) : badgeFactorList x =
    if 300 ≤ x then []
    else ["Badge count is below 300 (" ++ toString x ++ ")."] := rfl

theorem friendFactorList_eq (x : Int) : friendFactorList x =
    if 20 ≤ x then []
    else ["Friends count is below 20 (" ++ toString x ++ ")."] := rfl

theorem groupFactorList_eq (x : Int) : groupFactorList x =
    if 10 ≤ x then []
    else ["Groups/community count is below 10 (" ++ toString x ++ ")."] := rfl

theorem ageFactorList_nil {x : Int} (h : ageFactorList x = []) : 60 ≤ x := by
  rw [ageFactorList_eq] at h
  by_cases h1 : (60 : Int) ≤ x
  · exact h1
  · rw [if_neg h1] at h
    simp at h

theorem badgeFactorList_nil {x : Int} (h : badgeFactorList x = []) :
    300 ≤ x := by
  rw [badgeFactorList_eq] at h
  by_cases h1 : (300 : Int) ≤ x
  · exact h1
  · rw [if_neg h1] at h
    simp at h

theorem friendFactorList_nil {x : Int} (h : friendFactorList x = []) :
    20 ≤ x := by
  rw [friendFactorList_eq] at h
  by_cases h1 : (20 : Int) ≤ x
  · exact h1
  · rw [if_neg h1] at h
    simp at h

theorem groupFactorList_nil {x : Int} (h : groupFactorList x = []) :
    10 ≤ x := by
  rw [groupFactorList_eq] at h
  by_cases h1 : (10 : Int) ≤ x
  · exact h1
  · rw [if_neg h1] at h
    simp at h

theorem failedCount_eq (m : RiskMetrics) : failedCount m =
    (if 60 ≤ m.ageDays.getD 0 then 0 else 1) +
    (if 20 ≤ m.friends.getD 0 then 0 else 1) +
    (if 300 ≤ m.badges.getD 0 then 0 else 1) +
    (if 10 ≤ m.groups.getD 0 then 0 else 1) := rfl

theorem verifyScore_eq_zero_of_nil (m : RiskMetrics)
    (h : verifyFactorList m = []) : verifyScore m = 0 := by
  unfold verifyFactorList at h
  unfold verifyScore
  split_ifs at h ⊢ <;> simp_all

/-- If no factor was accumulated by the checks of lines 40-107, every check
passed, so the LOW branch condition holds. -/
theorem baseFactors_nil_lowCond (m : RiskMetrics) (h : baseFactors m = []) :
    lowCond m := by
  unfold baseFactors at h
  simp only [List.append_eq_nil] at h
  obtain ⟨⟨⟨⟨hv, hA⟩, hB⟩, hF⟩, hG⟩ := h
  have h60 := ageFactorList_nil hA
  have h300 := badgeFactorList_nil hB
  have h20 := friendFactorList_nil hF
  have h10 := groupFactorList_nil hG
  have hv0 := verifyScore_eq_zero_of_nil m hv
  constructor
  · rw [failedCount_eq]
    rw [if_pos h60, if_pos h20, if_pos h300, if_pos h10]
  · unfold rawScore
    rw [hv0, agePenalty_of_le h60, badgePenalty_of_le h300,
      friendPenalty_of_le h20, groupPenalty_of_le h10]
    norm_num

theorem ite_nil_ne_nil (l d : List String) (hd : d ≠ []) :
    (if l = [] then d else l) ≠ [] := by
  split_ifs with h
  · exact hd
  · exact h

end RobloxUser

/-- C4: at ageDays 30, 100 badges, 5 friends, 0 groups with all metrics
present and verified, computeRisk returns the highest level. -/
theorem worked_example_high :
    (RobloxUser.computeRisk
      (RobloxUser.metricsAt 30 100 5 0 true true true)).level = .high := by
  decide

/-- C2: with all four metrics present and verified and each at or above its
minimum, computeRisk returns the lowest level; at exactly the four minimums
the result is level LOW, score 0, and the single neutral factor. -/
theorem all_minimums_force_low :
    (∀ a b f g : Int, 60 ≤ a → 300 ≤ b → 20 ≤ f → 10 ≤ g →
      (RobloxUser.computeRisk
        (RobloxUser.metricsAt a b f g true true true)).level = .low) ∧
    RobloxUser.computeRisk (RobloxUser.metricsAt 60 300 20 10 true true true) =
      ⟨.low, 0, ["Meets all BGC requirements."]⟩ := by
  constructor
  · intro a b f g ha hb hf hg
    rw [RobloxUser.computeRisk_level]
    apply (RobloxUser.levelOf_low_iff _).mpr
    constructor
    · rw [RobloxUser.failedCount_metricsAt]
      rw [if_pos ha, if_pos hf, if_pos hb, if_pos hg]
    · rw [RobloxUser.rawScore_metricsAt]
      have hv : RobloxUser.verifyScore
          (RobloxUser.metricsAt a b f g true true true) = 0 := rfl
      rw [hv, RobloxUser.agePenalty_of_le ha, RobloxUser.badgePenalty_of_le hb,
        RobloxUser.friendPenalty_of_le hf, RobloxUser.groupPenalty_of_le hg]
      norm_num
  · decide

/-- Witness for C2: the hypotheses hold and the conclusion evaluates at the
concrete input 70 days, 400 badges, 25 friends, 12 groups. -/
theorem all_minimums_force_low_witness :
    (60 : Int) ≤ 70 ∧ (300 : Int) ≤ 400 ∧ (20 : Int) ≤ 25 ∧
    (10 : Int) ≤ 12 ∧
    (RobloxUser.computeRisk
      (RobloxUser.metricsAt 70 400 25 12 true true true)).level = .low :=
  ⟨by norm_num, by norm_num, by norm_num, by norm_num,
    all_minimums_force_low.1 70 400 25 12 (by norm_num) (by norm_num)
      (by norm_num) (by norm_num)⟩

/-- C1: whenever the account age is unverified (ageDays is null), computeRisk
never returns the lowest level, returns at least the middle level, and the
factors contain the explicit could-not-verify entry for the account age. -/
theorem unverified_age_never_low :
    ∀ m : RobloxUser.RiskMetrics, m.ageDays = none →
      (RobloxUser.computeRisk m).level ≠ .low ∧
      1 ≤ (RobloxUser.computeRisk m).level.rank ∧
      "Could not verify account age." ∈ (RobloxUser.computeRisk m).factors := by
  intro m hage
  have hfail : RobloxUser.failedCount m ≠ 0 := by
    rw [RobloxUser.failedCount_eq, hage]
    have h0 : ¬ ((60 : Int) ≤ (none : Option Int).getD 0) := by decide
    rw [if_neg h0]
    omega
  have hnlow : ¬ RobloxUser.lowCond m := fun hc => hfail hc.1
  refine ⟨?_, ?_, ?_⟩
  · rw [RobloxUser.computeRisk_level]
    intro hl
    exact hnlow ((RobloxUser.levelOf_low_iff m).mp hl)
  · rw [RobloxUser.computeRisk_level]
    unfold RobloxUser.levelOf
    rw [if_neg hnlow]
    split_ifs <;> simp [RiskLevel.rank]
  · rw [RobloxUser.computeRisk_factors]
    unfold RobloxUser.factorsOut
    rw [if_neg (fun hc => hnlow hc.1)]
    unfold RobloxUser.baseFactors RobloxUser.verifyFactorList
    rw [hage]
    simp

/-- Witness for C1: at a concrete metrics record with a null age the level
is not LOW. -/
theorem unverified_age_never_low_witness :
    (⟨none, some 400, some 25, some 12, true, true, true⟩ :
      RobloxUser.RiskMetrics).ageDays = none ∧
    (RobloxUser.computeRisk
      ⟨none, some 400, some 25, some 12, true, true, true⟩).level ≠ .low :=
  ⟨rfl, (unverified_age_never_low _ rfl).1⟩

/-- C9: both risk computations always return a non-empty factors list: a
neutral placeholder is substituted when no penalty factor accrued. -/
theorem factors_never_empty :
    (∀ m : RobloxUser.RiskMetrics, (RobloxUser.computeRisk m).factors ≠ []) ∧
    (∀ (bl : Evaluate.BlacklistResult) (counts : Evaluate.Counts)
      (req : Evaluate.Requirements),
      (Evaluate.computeRisk bl counts req).factors ≠ []) := by
  constructor
  · intro m
    rw [RobloxUser.computeRisk_factors]
    unfold RobloxUser.factorsOut
    split_ifs with h
    · simp
    · intro hb
      exact h ⟨RobloxUser.baseFactors_nil_lowCond m hb, hb⟩
  · intro bl counts req
    exact RobloxUser.ite_nil_ne_nil _ _ (by simp)

namespace Evaluate

theorem agePoints_eq (x bb ff gg : Int) :
    agePoints ⟨x, bb, ff, gg⟩ routeRequirements =
      if x < 60 then (if 60 - x ≤ 10 then 2 else if 60 - x ≤ 30 then 5 else 8)
      else 0 := rfl

theorem badgePoints_eq (aa x ff gg : Int) :
    badgePoints ⟨aa, x, ff, gg⟩ routeRequirements =
      if x < 300 then (if 300 - x ≤ 75 then 2 else if 150 ≤ x then 5 else 8)
      else 0 := rfl

theorem friendPoints_eq (aa bb x gg : Int) :
    friendPoints ⟨aa, bb, x, gg⟩ routeRequirements =
      if x < 20 then (if 20 - x ≤ 5 then 2 else if 10 ≤ x then 5 else 8)
      else 0 := rfl

theorem groupPoints_eq (aa bb ff x : Int) :
    groupPoints ⟨aa, bb, ff, x⟩ routeRequirements =
      if x < 10 then (if 10 - x ≤ 3 then 2 else if 3 ≤ x then 5 else 8)
      else 0 := rfl

theorem agePoints_anti (bb ff gg : Int) {x y : Int} (h : y ≤ x) :
    agePoints ⟨x, bb, ff, gg⟩ routeRequirements ≤
      agePoints ⟨y, bb, ff, gg⟩ routeRequirements := by
  rw [agePoints_eq, agePoints_eq]; split_ifs <;> omega

theorem badgePoints_anti (aa ff gg : Int) {x y : Int} (h : y ≤ x) :
    badgePoints ⟨aa, x, ff, gg⟩ routeRequirements ≤
      badgePoints ⟨aa, y, ff, gg⟩ routeRequirements := by
  rw [badgePoints_eq, badgePoints_eq]; split_ifs <;> omega

theorem friendPoints_anti (aa bb gg : Int) {x y : Int} (h : y ≤ x) :
    friendPoints ⟨aa, bb, x, gg⟩ routeRequirements ≤
      friendPoints ⟨aa, bb, y, gg⟩ routeRequirements := by
  rw [friendPoints_eq, friendPoints_eq]; split_ifs <;> omega

theorem groupPoints_anti (aa bb ff : Int) {x y : Int} (h : y ≤ x) :
    groupPoints ⟨aa, bb, ff, x⟩ routeRequirements ≤
      groupPoints ⟨aa, bb, ff, y⟩ routeRequirements := by
  rw [groupPoints_eq, groupPoints_eq]; split_ifs <;> omega

theorem reqScore_eq (c : Counts) (req : Requirements) :
    (computeRequirementRisk c req).score =
      agePoints c req + badgePoints c req + friendPoints c req +
        groupPoints c req := rfl

theorem evalRisk_score_def (bl : BlacklistResult) (c : Counts)
    (req : Requirements) : (computeRisk bl c req).score =
      (computeRequirementRisk c req).score +
      (if 0 < bl.blacklistedGroups.length then
        (bl.blacklistedGroups.length : Int) * 6 else 0) +
      (if 0 < bl.blacklistedFriends.length then
        (bl.blacklistedFriends.length : Int) * 5 else 0) +
      (if 0 < bl.crossDivision.length then
        (bl.crossDivision.length : Int) * 8 else 0) := rfl

theorem evalScore_eq (bl : BlacklistResult) (c : Counts)
    (req : Requirements) : (computeRisk bl c req).score =
      (computeRequirementRisk c req).score + blacklistScore bl := by
  rw [evalRisk_score_def]; unfold blacklistScore; ring

theorem blacklistScore_nonneg (bl : BlacklistResult) :
    0 ≤ blacklistScore bl := by
  unfold blacklistScore; split_ifs <;> positivity

theorem evalRisk_level_def (bl : BlacklistResult) (c : Counts)
    (req : Requirements) : (computeRisk bl c req).level =
      (if 12 ≤ (computeRisk bl c req).score then RiskLevel.high
       else if 4 ≤ (computeRisk bl c req).score then .medium
       else .low) := rfl

theorem evalRank_mono {s s2 : Int} (h : s ≤ s2) :
    (if 12 ≤ s then RiskLevel.high else if 4 ≤ s then .medium
      else .low).rank ≤
    (if 12 ≤ s2 then RiskLevel.high else if 4 ≤ s2 then .medium
      else .low).rank := by
  split_ifs <;> simp only [RiskLevel.rank] <;> omega

theorem reqScore_age_mono (bb ff gg : Int) {x y : Int} (h : y ≤ x) :
    (computeRequirementRisk ⟨x, bb, ff, gg⟩ routeRequirements).score ≤
      (computeRequirementRisk ⟨y, bb, ff, gg⟩ routeRequirements).score := by
  rw [reqScore_eq, reqScore_eq]
  have h1 := agePoints_anti bb ff gg h
  have e2 : badgePoints (⟨x, bb, ff, gg⟩ : Counts) routeRequirements =
      badgePoints ⟨y, bb, ff, gg⟩ routeRequirements := rfl
  have e3 : friendPoints (⟨x, bb, ff, gg⟩ : Counts) routeRequirements =
      friendPoints ⟨y, bb, ff, gg⟩ routeRequirements := rfl
  have e4 : groupPoints (⟨x, bb, ff, gg⟩ : Counts) routeRequirements =
      groupPoints ⟨y, bb, ff, gg⟩ routeRequirements := rfl
  omega

theorem reqScore_badge_mono (aa ff gg : Int) {x y : Int} (h : y ≤ x) :
    (computeRequirementRisk ⟨aa, x, ff, gg⟩ routeRequirements).score ≤
      (computeRequirementRisk ⟨aa, y, ff, gg⟩ routeRequirements).score := by
  rw [reqScore_eq, reqScore_eq]
  have h1 := badgePoints_anti aa ff gg h
  have e2 : agePoints (⟨aa, x, ff, gg⟩ : Counts) routeRequirements =
      agePoints ⟨aa, y, ff, gg⟩ routeRequirements := rfl
  have e3 : friendPoints (⟨aa, x, ff, gg⟩ : Counts) routeRequirements =
      friendPoints ⟨aa, y, ff, gg⟩ routeRequirements := rfl
  have e4 : groupPoints (⟨aa, x, ff, gg⟩ : Counts) routeRequirements =
      groupPoints ⟨aa, y, ff, gg⟩ routeRequirements := rfl
  omega

theorem reqScore_friend_mono (aa bb gg : Int) {x y : Int} (h : y ≤ x) :
    (computeRequirementRisk ⟨aa, bb, x, gg⟩ routeRequirements).score ≤
      (computeRequirementRisk ⟨aa, bb, y, gg⟩ routeRequirements).score := by
  rw [reqScore_eq, reqScore_eq]
  have h1 := friendPoints_anti aa bb gg h
  have e2 : agePoints (⟨aa, bb, x, gg⟩ : Counts) routeRequirements =
      agePoints ⟨aa, bb, y, gg⟩ routeRequirements := rfl
  have e3 : badgePoints (⟨aa, bb, x, gg⟩ : Counts) routeRequirements =
      badgePoints ⟨aa, bb, y, gg⟩ routeRequirements := rfl
  have e4 : groupPoints (⟨aa, bb, x, gg⟩ : Counts) routeRequirements =
      groupPoints ⟨aa, bb, y, gg⟩ routeRequirements := rfl
  omega

theorem reqScore_group_mono (aa bb ff : Int) {x y : Int} (h : y ≤ x) :
    (computeRequirementRisk ⟨aa, bb, ff, x⟩ routeRequirements).score ≤
      (computeRequirementRisk ⟨aa, bb, ff, y⟩ routeRequirements).score := by
  rw [reqScore_eq, reqScore_eq]
  have h1 := groupPoints_anti aa bb ff h
  have e2 : agePoints (⟨aa, bb, ff, x⟩ : Counts) routeRequirements =
      agePoints ⟨aa, bb, ff, y⟩ routeRequirements := rfl
  have e3 : badgePoints (⟨aa, bb, ff, x⟩ : Counts) routeRequirements =
      badgePoints ⟨aa, bb, ff, y⟩ routeRequirements := rfl
  have e4 : friendPoints (⟨aa, bb, ff, x⟩ : Counts) routeRequirements =
      friendPoints ⟨aa, bb, ff, y⟩ routeRequirements := rfl
  omega

theorem evalScore_mono_of_req (bl : BlacklistResult) {c c2 : Counts}
    (h : (computeRequirementRisk c routeRequirements).score ≤
      (computeRequirementRisk c2 routeRequirements).score) :
    (computeRisk bl c routeRequirements).score ≤
      (computeRisk bl c2 routeRequirements).score := by
  rw [evalScore_eq, evalScore_eq]
  omega

theorem evalRank_mono_of_score (bl : BlacklistResult) {c c2 : Counts}
    (h : (computeRisk bl c routeRequirements).score ≤
      (computeRisk bl c2 routeRequirements).score) :
    (computeRisk bl c routeRequirements).level.rank ≤
      (computeRisk bl c2 routeRequirements).level.rank := by
  rw [evalRisk_level_def, evalRisk_level_def]
  exact evalRank_mono h

end Evaluate

/-- C3: for each of the four metrics, decreasing that metric while holding
the other three at or above their minimums never decreases the score of
either risk scorer (computeRisk of the user route, computeRequirementRisk
and the combined computeRisk of the evaluate route) and never lowers the
returned level in the Low < Medium < High ordering. -/
theorem risk_score_monotone :
    ∀ (fv bv gv : Bool) (bl : Evaluate.BlacklistResult) (x y a b f g : Int),
      y ≤ x →
      ((300 ≤ b → 20 ≤ f → 10 ≤ g →
        (RobloxUser.computeRisk (RobloxUser.metricsAt x b f g fv bv gv)).score ≤
          (RobloxUser.computeRisk (RobloxUser.metricsAt y b f g fv bv gv)).score ∧
        (RobloxUser.computeRisk
            (RobloxUser.metricsAt x b f g fv bv gv)).level.rank ≤
          (RobloxUser.computeRisk
            (RobloxUser.metricsAt y b f g fv bv gv)).level.rank ∧
        (Evaluate.computeRequirementRisk ⟨x, b, f, g⟩
            Evaluate.routeRequirements).score ≤
          (Evaluate.computeRequirementRisk ⟨y, b, f, g⟩
            Evaluate.routeRequirements).score ∧
        (Evaluate.computeRisk bl ⟨x, b, f, g⟩
            Evaluate.routeRequirements).score ≤
          (Evaluate.computeRisk bl ⟨y, b, f, g⟩
            Evaluate.routeRequirements).score ∧
        (Evaluate.computeRisk bl ⟨x, b, f, g⟩
            Evaluate.routeRequirements).level.rank ≤
          (Evaluate.computeRisk bl ⟨y, b, f, g⟩
            Evaluate.routeRequirements).level.rank) ∧
      (60 ≤ a → 20 ≤ f → 10 ≤ g →
        (RobloxUser.computeRisk (RobloxUser.metricsAt a x f g fv bv gv)).score ≤
          (RobloxUser.computeRisk (RobloxUser.metricsAt a y f g fv bv gv)).score ∧
        (RobloxUser.computeRisk
            (RobloxUser.metricsAt a x f g fv bv gv)).level.rank ≤
          (RobloxUser.computeRisk
            (RobloxUser.metricsAt a y f g fv bv gv)).level.rank ∧
        (Evaluate.computeRequirementRisk ⟨a, x, f, g⟩
            Evaluate.routeRequirements).score ≤
          (Evaluate.computeRequirementRisk ⟨a, y, f, g⟩
            Evaluate.routeRequirements).score ∧
        (Evaluate.computeRisk bl ⟨a, x, f, g⟩
            Evaluate.routeRequirements).score ≤
          (Evaluate.computeRisk bl ⟨a, y, f, g⟩
            Evaluate.routeRequirements).score ∧
        (Evaluate.computeRisk bl ⟨a, x, f, g⟩
            Evaluate.routeRequirements).level.rank ≤
          (Evaluate.computeRisk bl ⟨a, y, f, g⟩
            Evaluate.routeRequirements).level.rank) ∧
      (60 ≤ a → 300 ≤ b → 10 ≤ g →
        (RobloxUser.computeRisk (RobloxUser.metricsAt a b x g fv bv gv)).score ≤
          (RobloxUser.computeRisk (RobloxUser.metricsAt a b y g fv bv gv)).score ∧
        (RobloxUser.computeRisk
            (RobloxUser.metricsAt a b x g fv bv gv)).level.rank ≤
          (RobloxUser.computeRisk
            (RobloxUser.metricsAt a b y g fv bv gv)).level.rank ∧
        (Evaluate.computeRequirementRisk ⟨a, b, x, g⟩
            Evaluate.routeRequirements).score ≤
          (Evaluate.computeRequirementRisk ⟨a, b, y, g⟩
            Evaluate.routeRequirements).score ∧
        (Evaluate.computeRisk bl ⟨a, b, x, g⟩
            Evaluate.routeRequirements).score ≤
          (Evaluate.computeRisk bl ⟨a, b, y, g⟩
            Evaluate.routeRequirements).score ∧
        (Evaluate.computeRisk bl ⟨a, b, x, g⟩
            Evaluate.routeRequirements).level.rank ≤
          (Evaluate.computeRisk bl ⟨a, b, y, g⟩
            Evaluate.routeRequirements).level.rank) ∧
      (60 ≤ a → 300 ≤ b → 20 ≤ f →
        (RobloxUser.computeRisk (RobloxUser.metricsAt a b f x fv bv gv)).score ≤
          (RobloxUser.computeRisk (RobloxUser.metricsAt a b f y fv bv gv)).score ∧
        (RobloxUser.computeRisk
            (RobloxUser.metricsAt a b f x fv bv gv)).level.rank ≤
          (RobloxUser.computeRisk
            (RobloxUser.metricsAt a b f y fv bv gv)).level.rank ∧
        (Evaluate.computeRequirementRisk ⟨a, b, f, x⟩
            Evaluate.routeRequirements).score ≤
          (Evaluate.computeRequirementRisk ⟨a, b, f, y⟩
            Evaluate.routeRequirements).score ∧
        (Evaluate.computeRisk bl ⟨a, b, f, x⟩
            Evaluate.routeRequirements).score ≤
          (Evaluate.computeRisk bl ⟨a, b, f, y⟩
            Evaluate.routeRequirements).score ∧
        (Evaluate.computeRisk bl ⟨a, b, f, x⟩
            Evaluate.routeRequirements).level.rank ≤
          (Evaluate.computeRisk bl ⟨a, b, f, y⟩
            Evaluate.routeRequirements).level.rank)) := by
  intro fv bv gv bl x y a b f g hxy
  refine ⟨fun _ _ _ => ?_, fun _ _ _ => ?_, fun _ _ _ => ?_, fun _ _ _ => ?_⟩
  · obtain ⟨h1, h2⟩ := RobloxUser.computeRisk_mono fv bv gv hxy
      (le_refl b) (le_refl f) (le_refl g)
    have h3 := Evaluate.reqScore_age_mono b f g hxy
    have h4 := Evaluate.evalScore_mono_of_req bl h3
    exact ⟨h1, h2, h3, h4, Evaluate.evalRank_mono_of_score bl h4⟩
  · obtain ⟨h1, h2⟩ := RobloxUser.computeRisk_mono fv bv gv
      (le_refl a) hxy (le_refl f) (le_refl g)
    have h3 := Evaluate.reqScore_badge_mono a f g hxy
    have h4 := Evaluate.evalScore_mono_of_req bl h3
    exact ⟨h1, h2, h3, h4, Evaluate.evalRank_mono_of_score bl h4⟩
  · obtain ⟨h1, h2⟩ := RobloxUser.computeRisk_mono fv bv gv
      (le_refl a) (le_refl b) hxy (le_refl g)
    have h3 := Evaluate.reqScore_friend_mono a b g hxy
    have h4 := Evaluate.evalScore_mono_of_req bl h3
    exact ⟨h1, h2, h3, h4, Evaluate.evalRank_mono_of_score bl h4⟩
  · obtain ⟨h1, h2⟩ := RobloxUser.computeRisk_mono fv bv gv
      (le_refl a) (le_refl b) (le_refl f) hxy
    have h3 := Evaluate.reqScore_group_mono a b f hxy
    have h4 := Evaluate.evalScore_mono_of_req bl h3
    exact ⟨h1, h2, h3, h4, Evaluate.evalRank_mono_of_score bl h4⟩

/-- Witness for C3: at the concrete instance of decreasing the age metric
from 60 to 30 days with the other metrics at their minimums, all hypotheses
hold and the monotonicity conclusions evaluate. -/
theorem risk_score_monotone_witness :
    (30 : Int) ≤ 60 ∧ (300 : Int) ≤ 300 ∧ (20 : Int) ≤ 20 ∧
    (10 : Int) ≤ 10 ∧
    ((RobloxUser.computeRisk
        (RobloxUser.metricsAt 60 300 20 10 true true true)).score ≤
      (RobloxUser.computeRisk
        (RobloxUser.metricsAt 30 300 20 10 true true true)).score ∧
    (RobloxUser.computeRisk
        (RobloxUser.metricsAt 60 300 20 10 true true true)).level.rank ≤
      (RobloxUser.computeRisk
        (RobloxUser.metricsAt 30 300 20 10 true true true)).level.rank ∧
    (Evaluate.computeRequirementRisk ⟨60, 300, 20, 10⟩
        Evaluate.routeRequirements).score ≤
      (Evaluate.computeRequirementRisk ⟨30, 300, 20, 10⟩
        Evaluate.routeRequirements).score ∧
    (Evaluate.computeRisk ⟨[], [], []⟩ ⟨60, 300, 20, 10⟩
        Evaluate.routeRequirements).score ≤
      (Evaluate.computeRisk ⟨[], [], []⟩ ⟨30, 300, 20, 10⟩
        Evaluate.routeRequirements).score ∧
    (Evaluate.computeRisk ⟨[], [], []⟩ ⟨60, 300, 20, 10⟩
        Evaluate.routeRequirements).level.rank ≤
      (Evaluate.computeRisk ⟨[], [], []⟩ ⟨30, 300, 20, 10⟩
        Evaluate.routeRequirements).level.rank) :=
  ⟨by norm_num, by norm_num, by norm_num, by norm_num,
    (risk_score_monotone true true true ⟨[], [], []⟩ 60 30 60 300 20 10
      (by norm_num)).1 (by norm_num) (by norm_num) (by norm_num)⟩

/-- C8: the combined evaluate-route risk score is the requirements score
plus a non-negative blacklist contribution (so blacklist matches can only
increase the score), and any cross-division match appends the standalone
warning string. -/
theorem blacklist_only_increases_score :
    ∀ (bl : Evaluate.BlacklistResult) (counts : Evaluate.Counts)
      (req : Evaluate.Requirements),
      (Evaluate.computeRisk bl counts req).score =
        (Evaluate.computeRequirementRisk counts req).score +
          Evaluate.blacklistScore bl ∧
      0 ≤ Evaluate.blacklistScore bl ∧
      (Evaluate.computeRequirementRisk counts req).score ≤
        (Evaluate.computeRisk bl counts req).score ∧
      (bl.crossDivision ≠ [] →
        "Cross-division blacklist detected." ∈
          (Evaluate.computeRisk bl counts req).warnings) := by
  intro bl counts req
  have h1 := Evaluate.evalScore_eq bl counts req
  have h2 := Evaluate.blacklistScore_nonneg bl
  refine ⟨h1, h2, by omega, ?_⟩
  intro hcd
  have hlen : 0 < bl.crossDivision.length := List.length_pos.mpr hcd
  have hw : (Evaluate.computeRisk bl counts req).warnings =
      if 0 < bl.crossDivision.length then
        ["Cross-division blacklist detected."] else [] := rfl
  rw [hw, if_pos hlen]
  simp

/-- Witness for C8: with one cross-division entry the hypothesis holds and
the warning is present. -/
theorem blacklist_only_increases_score_witness :
    (⟨[], [], [⟨"navy", "Navy / Fleet"⟩]⟩ :
      Evaluate.BlacklistResult).crossDivision ≠ [] ∧
    "Cross-division blacklist detected." ∈
      (Evaluate.computeRisk ⟨[], [], [⟨"navy", "Navy / Fleet"⟩]⟩
        ⟨0, 0, 0, 0⟩ Evaluate.routeRequirements).warnings :=
  ⟨by simp,
    (blacklist_only_increases_score ⟨[], [], [⟨"navy", "Navy / Fleet"⟩]⟩
      ⟨0, 0, 0, 0⟩ Evaluate.routeRequirements).2.2.2 (by simp)⟩

/-- C10: when the evaluate route's internal re-call of the first endpoint
returns a non-ok response, the evaluate route responds 500 (never the
upstream status) with the response text as the detail field. -/
theorem evaluate_internal_failure_500 :
    ∀ (env : Evaluate.EvalEnv) (s : String) (n : Int),
      env.idParam = some s → s ≠ "" → env.jsNumber s.trim = some n →
      0 < n → env.robloxRes.ok = false →
      (Evaluate.GET env).status = 500 ∧
      (Evaluate.GET env).detail = some env.robloxRes.text ∧
      (Evaluate.GET env).error =
        some "Failed to fetch Roblox profile for evaluation" := by
  intro env s n hid hs hn hpos hok
  have hnp : ¬ (n ≤ 0) := by omega
  refine ⟨?_, ?_, ?_⟩ <;> simp [Evaluate.GET, hid, hs, hn, hnp, hok]

/-- Witness for C10: at a concrete environment whose internal fetch fails
with 404, the evaluate route returns 500 and surfaces the response text. -/
theorem evaluate_internal_failure_500_witness :
    Evaluate.envInternal404.idParam = some "5" ∧
    Evaluate.envInternal404.robloxRes.ok = false ∧
    Evaluate.envInternal404.robloxRes.status = 404 ∧
    (Evaluate.GET Evaluate.envInternal404).status = 500 ∧
    (Evaluate.GET Evaluate.envInternal404).detail =
      some "upstream says no" := by
  refine ⟨rfl, rfl, rfl, ?_, ?_⟩
  · exact (evaluate_internal_failure_500 Evaluate.envInternal404 "5" 5 rfl
      (by decide) rfl (by norm_num) rfl).1
  · exact (evaluate_internal_failure_500 Evaluate.envInternal404 "5" 5 rfl
      (by decide) rfl (by norm_num) rfl).2.1

namespace RobloxUser

/-- When the stub serves ok pages with cursors and then a non-ok page, the
friends loop collects exactly the served pages (in order) and reports the
list as unverified. -/
theorem friendsLoop_servesThenFails (stub : Option String → FriendsPage) :
    ∀ (pages : List FriendsPage) (cursor : Option String)
      (acc : List FriendEntry) (fuel : Nat),
      servesThenFails stub cursor pages → pages.length < fuel →
      friendsLoop stub fuel cursor acc =
        (acc ++ (pages.map friendPageEntries).flatten, false) := by
  intro pages
  induction pages with
  | nil =>
    intro cursor acc fuel hserves hfuel
    obtain ⟨k, rfl⟩ : ∃ k, fuel = k + 1 := ⟨fuel - 1, by omega⟩
    unfold servesThenFails at hserves
    unfold friendsLoop
    simp [hserves]
  | cons p rest ih =>
    intro cursor acc fuel hserves hfuel
    have hfuel2 : rest.length + 1 < fuel := by simpa using hfuel
    obtain ⟨k, rfl⟩ : ∃ k, fuel = k + 1 := ⟨fuel - 1, by omega⟩
    obtain ⟨hstub, hok, s, hnext, hrest⟩ := hserves
    unfold friendsLoop
    simp only [hstub, hok, hnext, if_true]
    rw [ih (some s) (acc ++ friendPageEntries p) k hrest (by omega)]
    simp [List.append_assoc]

theorem GET_valid_ok (env : Env) (s : String) (n : Int)
    (hid : env.idParam = some s) (hs : s ≠ "")
    (hn : env.jsNumber s = some n) (hok : env.userRes.ok = true) :
    GET env = ⟨200, some (successPayload env), none⟩ := by
  unfold GET
  rw [hid]
  simp [hs, hn, hok]

theorem GET_primary_fail (env : Env) (s : String) (n : Int)
    (hid : env.idParam = some s) (hs : s ≠ "")
    (hn : env.jsNumber s = some n) (hnok : env.userRes.ok = false) :
    GET env = ⟨env.userRes.status, none, some "Failed to fetch Roblox user"⟩ := by
  unfold GET
  rw [hid]
  simp [hs, hn, hnok]

theorem successPayload_friends (env : Env) (pages : List FriendsPage)
    (hserves : servesThenFails env.friendsStub none pages)
    (hfuel : pages.length < env.fuel) :
    (successPayload env).friends = (pages.map friendPageEntries).flatten ∧
    (successPayload env).profile.friendsCount = 0 ∧
    (successPayload env).profile.verification.friendsVerified = false := by
  have hl := friendsLoop_servesThenFails env.friendsStub pages none []
    env.fuel hserves hfuel
  refine ⟨?_, ?_, ?_⟩ <;> simp [successPayload, hl]

/-- C6: the pagination loop, run against any stub serving a finite chain of
ok pages (each non-final page carrying the cursor under which the next page
is served, the final page carrying none), collects the concatenation of all
pages' entries in page order and stops at the cursor-less page. -/
theorem pagination_collects_all :
    ∀ (stub : Option String → FriendsPage) (pages : List FriendsPage)
      (cursor : Option String) (acc : List FriendEntry) (fuel : Nat),
      pages ≠ [] → servesAll stub cursor pages → pages.length ≤ fuel →
      friendsLoop stub fuel cursor acc =
        (acc ++ (pages.map friendPageEntries).flatten, true) := by
  intro stub pages
  induction pages with
  | nil => intro cursor acc fuel hne _ _; exact absurd rfl hne
  | cons p rest ih =>
    intro cursor acc fuel hne hserves hfuel
    have hfuel2 : rest.length + 1 ≤ fuel := by simpa using hfuel
    obtain ⟨k, rfl⟩ : ∃ k, fuel = k + 1 := ⟨fuel - 1, by omega⟩
    obtain ⟨hstub, hok, hrest⟩ := hserves
    cases rest with
    | nil =>
      unfold friendsLoop
      simp [hstub, hok, hrest]
    | cons q rest2 =>
      obtain ⟨s, hnext, hrest2⟩ := hrest
      unfold friendsLoop
      simp only [hstub, hok, hnext, if_true]
      rw [ih (some s) (acc ++ friendPageEntries p) k (by simp) hrest2
        (by omega)]
      simp [List.append_assoc]

/-- Witness for C6: the three-page stub (two pages with a cursor, one
without) satisfies the hypotheses, and the loop collects all three pages'
entries in order. -/
theorem pagination_collects_all_witness :
    ([pageA, pageB, pageC] ≠ ([] : List FriendsPage)) ∧
    servesAll stubThreePages none [pageA, pageB, pageC] ∧
    [pageA, pageB, pageC].length ≤ 3 ∧
    friendsLoop stubThreePages 3 none [] =
      (([pageA, pageB, pageC].map friendPageEntries).flatten, true) := by
  have hne : [pageA, pageB, pageC] ≠ ([] : List FriendsPage) := by simp
  have hserves : servesAll stubThreePages none [pageA, pageB, pageC] :=
    ⟨rfl, rfl, "A", rfl, rfl, rfl, "B", rfl, rfl, rfl, rfl⟩
  have hlen : [pageA, pageB, pageC].length ≤ 3 := by simp
  have hloop := pagination_collects_all stubThreePages [pageA, pageB, pageC]
    none [] 3 hne hserves hlen
  exact ⟨hne, hserves, hlen, by simpa using hloop⟩

/-- C5: a non-ok primary profile fetch aborts the request with exactly the
upstream status and no payload; a friends fetch failing mid-pagination
still yields a 200 response containing the pages collected before the
failure, with the friends count degraded to zero and the friends list
marked unverified. -/
theorem primary_fatal_secondary_degrade :
    (∀ (env : Env) (s : String) (n : Int),
      env.idParam = some s → s ≠ "" → env.jsNumber s = some n →
      env.userRes.ok = false →
      (GET env).status = env.userRes.status ∧ (GET env).payload = none) ∧
    (∀ (env : Env) (s : String) (n : Int) (pages : List FriendsPage),
      env.idParam = some s → s ≠ "" → env.jsNumber s = some n →
      env.userRes.ok = true →
      servesThenFails env.friendsStub none pages →
      pages.length < env.fuel →
      (GET env).status = 200 ∧
      (GET env).payload.map Payload.friends =
        some ((pages.map friendPageEntries).flatten) ∧
      (GET env).payload.map (fun p => p.profile.friendsCount) = some 0 ∧
      (GET env).payload.map
        (fun p => p.profile.verification.friendsVerified) = some false) := by
  constructor
  · intro env s n hid hs hn hnok
    rw [GET_primary_fail env s n hid hs hn hnok]
    exact ⟨rfl, rfl⟩
  · intro env s n pages hid hs hn hok hserves hfuel
    obtain ⟨h1, h2, h3⟩ := successPayload_friends env pages hserves hfuel
    rw [GET_valid_ok env s n hid hs hn hok]
    refine ⟨rfl, ?_, ?_, ?_⟩ <;> simp [h1, h2, h3]

/-- Witness for C5: a concrete environment whose primary fetch fails with
404 aborts with 404; a concrete environment whose friends endpoint serves
one page then fails returns 200 with that page collected and the count
degraded to zero. -/
theorem primary_fatal_secondary_degrade_witness :
    ((GET envPrimary404).status = 404 ∧ (GET envPrimary404).payload = none) ∧
    ((GET envFriendsFail).status = 200 ∧
      (GET envFriendsFail).payload.map Payload.friends =
        some (([goodFriendsPage].map friendPageEntries).flatten) ∧
      (GET envFriendsFail).payload.map
        (fun p => p.profile.friendsCount) = some 0) := by
  have h1 := primary_fatal_secondary_degrade.1 envPrimary404 "5" 5 rfl
    (by decide) rfl rfl
  have h2 := primary_fatal_secondary_degrade.2 envFriendsFail "5" 5
    [goodFriendsPage] rfl (by decide) rfl rfl
    ⟨rfl, rfl, "c1", rfl, rfl⟩ (by decide)
  exact ⟨⟨h1.1, h1.2⟩, ⟨h2.1, h2.2.1, h2.2.2.1⟩⟩

/-- C7 (amended): the route responds 400 exactly when the id parameter is
falsy or non-finite, or when the id is valid but the primary upstream fetch
itself failed with status 400 (which the route propagates); for a falsy or
non-finite id the 400 carries an error body, no payload, and is produced
without consulting any upstream response (the result only depends on the id
parameter and the number parse). -/
theorem status400_iff_invalid_or_upstream400 :
    ∀ env : Env,
      ((GET env).status = 400 ↔
        (invalidId env = true ∨
          (invalidId env = false ∧ env.userRes.ok = false ∧
            env.userRes.status = 400))) ∧
      (invalidId env = true →
        (GET env).payload = none ∧ (GET env).error ≠ none ∧
        ∀ env2 : Env, env2.idParam = env.idParam →
          env2.jsNumber = env.jsNumber → GET env2 = GET env) := by
  intro env
  rcases hid : env.idParam with _ | s
  · have hG : GET env = ⟨400, none, some "Missing id query parameter"⟩ := by
      unfold GET; rw [hid]
    have hinv : invalidId env = true := by unfold invalidId; rw [hid]
    constructor
    · rw [hG]; simp [hinv]
    · intro _
      refine ⟨by rw [hG], by rw [hG]; simp, ?_⟩
      intro env2 h2id _
      have hG2 : GET env2 = ⟨400, none, some "Missing id query parameter"⟩ := by
        unfold GET; rw [h2id]
      rw [hG2, hG]
  · by_cases hs : s = ""
    · subst hs
      have hG : GET env = ⟨400, none, some "Missing id query parameter"⟩ := by
        unfold GET; rw [hid]; simp
      have hinv : invalidId env = true := by
        unfold invalidId; rw [hid]; simp
      constructor
      · rw [hG]; simp [hinv]
      · intro _
        refine ⟨by rw [hG], by rw [hG]; simp, ?_⟩
        intro env2 h2id _
        have hG2 : GET env2 =
            ⟨400, none, some "Missing id query parameter"⟩ := by
          unfold GET; rw [h2id]; simp
        rw [hG2, hG]
    · rcases hn : env.jsNumber s with _ | n
      · have hG : GET env = ⟨400, none, some "Invalid id query parameter"⟩ := by
          unfold GET; rw [hid]; simp [hs, hn]
        have hinv : invalidId env = true := by
          unfold invalidId; rw [hid]; simp [hn]
        constructor
        · rw [hG]; simp [hinv]
        · intro _
          refine ⟨by rw [hG], by rw [hG]; simp, ?_⟩
          intro env2 h2id h2js
          have hG2 : GET env2 =
              ⟨400, none, some "Invalid id query parameter"⟩ := by
            unfold GET; rw [h2id]; simp [hs, h2js, hn]
          rw [hG2, hG]
      · have hinv : invalidId env = false := by
          unfold invalidId; rw [hid]; simp [hs, hn]
        by_cases hok : env.userRes.ok = true
        · have hG := GET_valid_ok env s n hid hs hn hok
          constructor
          · rw [hG]; simp [hinv, hok]
          · intro habs; rw [hinv] at habs; exact absurd habs (by decide)
        · rw [Bool.not_eq_true] at hok
          have hG := GET_primary_fail env s n hid hs hn hok
          constructor
          · rw [hG]; simp [hinv, hok]
          · intro habs; rw [hinv] at habs; exact absurd habs (by decide)

/-- Counterexample to C7 as stated: at a concrete environment whose id is
valid but whose primary upstream fetch fails with status 400, the route
returns 400 even though the id parameter is neither missing nor invalid. -/
theorem status400_not_only_for_invalid_id :
    invalidId envUpstream400 = false ∧
    envUpstream400.userRes.ok = false ∧
    envUpstream400.userRes.status = 400 ∧
    (GET envUpstream400).status = 400 := by decide

/-- Witness for the amended C7: at a concrete environment with an
unparseable id the route returns 400 with no payload. -/
theorem status400_iff_invalid_or_upstream400_witness :
    invalidId envBadId = true ∧
    (GET envBadId).status = 400 ∧ (GET envBadId).payload = none := by
  refine ⟨by decide, ?_, ?_⟩
  · exact ((status400_iff_invalid_or_upstream400 envBadId).1).mpr
      (Or.inl (by decide))
  · exact ((status400_iff_invalid_or_upstream400 envBadId).2 (by decide)).1

end RobloxUser
